import Mathlib

/-!
Verification of the system-information acquisition layer of the
`about-this-linux` tool (file `src/system_info.rs`).

The Rust code is shallowly embedded: Rust strings become `Str := List Char`
(Rust byte indices are modelled as character indices; all data relevant to
the claims is ASCII), external commands and file reads become fields of a
`Host` record (`none` = the spawn/read failed, `some s` = the captured
text), and a Rust panic is modelled as the `none` case of an `Option`
result.  Each definition follows the corresponding Rust function
line by line.
-/

namespace ATL

/-- Strings are modelled as lists of characters. -/
abbrev Str := List Char

/-- Coerce a Lean string literal into the model. -/
def str (s : String) : Str := s.data

/-- Model of Rust `char::is_whitespace` restricted to the ASCII whitespace
characters that occur in tool output. -/
def isWs (c : Char) : Bool := c = ' ' ∨ c = '\t' ∨ c = '\n' ∨ c = '\r'

/-- Model of Rust `str::trim`. -/
def trimS (s : Str) : Str :=
  ((s.dropWhile isWs).reverse.dropWhile isWs).reverse

/-- Model of Rust `str::contains(pat)` for a string pattern. -/
def containsS (s pat : Str) : Bool := decide (pat <:+: s)

/-- Model of Rust `str::contains(c)` for a character pattern. -/
def containsC (s : Str) (c : Char) : Bool := s.contains c

/-- Model of Rust `str::starts_with(pat)`. -/
def startsWithS (s pat : Str) : Bool := decide (pat <+: s)

/-- Model of Rust `str::split(c)`: splits at every occurrence of `c`,
keeping empty pieces. -/
def splitOnChar (c : Char) : Str → List Str
  | [] => [[]]
  | x :: xs =>
    if x = c then [] :: splitOnChar c xs
    else
      match splitOnChar c xs with
      | [] => [[x]]
      | h :: t => (x :: h) :: t

/-- Accumulating pass of `splitWs`: `acc` is the current token, reversed. -/
def splitWsAux : Str → Str → List Str
  | [], acc => if acc.isEmpty then [] else [acc.reverse]
  | c :: cs, acc =>
    if isWs c then
      if acc.isEmpty then splitWsAux cs [] else acc.reverse :: splitWsAux cs []
    else splitWsAux cs (c :: acc)

/-- Model of Rust `str::split_whitespace`: maximal runs of
non-whitespace characters, in order. -/
def splitWs (s : Str) : List Str := splitWsAux s []

/-- Model of Rust `str::lines`: split on newline characters, drop one
trailing empty piece, strip a trailing carriage return from each line. -/
def linesOf (s : Str) : List Str :=
  let ps := splitOnChar '\n' s
  let ps := match ps.reverse with
    | [] :: r => r.reverse
    | _ => ps
  ps.map (fun l => match l.reverse with
    | '\r' :: r => r.reverse
    | _ => l)

/-- Model of Rust `str::to_lowercase` (ASCII range). -/
def toLowerS (s : Str) : Str := s.map Char.toLower

/-- Fuel-driven pass of `replaceS`.  Each step shortens the string by at
least one character and spends exactly one unit of fuel, so fuel equal to
the string length is always sufficient and the fuel-exhausted arm is
never reached. -/
def replaceF (pat rep : Str) : Nat → Str → Str
  | _, [] => []
  | 0, s => s
  | fuel + 1, c :: cs =>
    if pat.isPrefixOf (c :: cs) then
      rep ++ replaceF pat rep fuel ((c :: cs).drop pat.length)
    else
      c :: replaceF pat rep fuel cs

/-- Model of Rust `str::replace(pat, rep)`: replace every occurrence of
the non-empty pattern, left to right (the code only ever uses non-empty
patterns). -/
def replaceS (s pat rep : Str) : Str :=
  if pat.isEmpty then s else replaceF pat rep s.length s

/-- Model of Rust `u64::from_str` as used through `parse::<u64>()`:
an optional leading `+`, then one or more decimal digits, value below
`2 ^ 64`. -/
def parseU64 (s : Str) : Option Nat :=
  let t := match s with
    | '+' :: r => r
    | r => r
  if t ≠ [] ∧ t.all Char.isDigit then
    let v := t.foldl (fun a c => a * 10 + (c.toNat - '0'.toNat)) 0
    if v < 2 ^ 64 then some v else none
  else none

/-- Decimal digits of a natural number, most significant first
(Rust integer `Display`). -/
def natToStr (n : Nat) : Str := Nat.toDigits 10 n

/-- Model of the grammar accepted by Rust `f64::from_str` (as used through
`parse::<f64>()` on candidate refresh-rate tokens): optional sign, then
either digits with an optional fractional part (at least one digit in
total) and an optional exponent, or one of the special words
inf/infinity/nan, case-insensitive. -/
def isF64 (s : Str) : Bool :=
  let body := match s with
    | '+' :: r => r
    | '-' :: r => r
    | r => r
  let lower := toLowerS body
  if lower = str "inf" ∨ lower = str "infinity" ∨ lower = str "nan" then
    true
  else
    let mantExp := splitOnChar 'e' (toLowerS body)
    let checkMant (m : Str) : Bool :=
      let parts := splitOnChar '.' m
      match parts with
      | [a] => a ≠ [] ∧ a.all Char.isDigit
      | [a, b] => (a ≠ [] ∨ b ≠ []) ∧ a.all Char.isDigit ∧ b.all Char.isDigit
      | _ => false
    let checkExp (x : Str) : Bool :=
      let y := match x with
        | '+' :: r => r
        | '-' :: r => r
        | r => r
      y ≠ [] ∧ y.all Char.isDigit
    match mantExp with
    | [m] => checkMant m
    | [m, x] => checkMant m ∧ checkExp x
    | _ => false

/-- Lookup in a map built by successive `HashMap::insert` calls, modelled
as an association list in insertion order: the last write wins. -/
def lookupL (k : Str) : List (Str × Str) → Option Str
  | [] => none
  | (a, b) :: t =>
    match lookupL k t with
    | some v => some v
    | none => if a = k then some b else none

/-- Model of Rust `str::trim_matches(c)`: strip every leading and trailing
occurrence of `c`. -/
def trimMatches (c : Char) (s : Str) : Str :=
  ((s.dropWhile (· = c)).reverse.dropWhile (· = c)).reverse

/-- Substring after the first occurrence of `pat` (Rust
`line.find(pat)` followed by slicing past the pattern); `none` when the
pattern does not occur. -/
def afterFirst (s pat : Str) : Option Str :=
  if pat.isPrefixOf s then some (s.drop pat.length)
  else
    match s with
    | [] => none
    | _ :: t => afterFirst t pat

/-- Model of Rust `Vec::join(sep)`. -/
def joinSep (sep : Str) : List Str → Str
  | [] => []
  | [x] => x
  | x :: xs => x ++ sep ++ joinSep sep xs

/-- Numeric value of a digit string (helper for the number parsers). -/
def digitsVal (s : Str) : Nat :=
  s.foldl (fun a c => a * 10 + (c.toNat - '0'.toNat)) 0

/-- Model of Rust `f32::from_str` on the percentage column of `df`:
optional sign, digits with an optional fractional part.  The value is kept
as an exact rational; exponent and inf/nan forms, and the rounding of the
decimal to the nearest `f32`, are abstracted away (no claim inspects the
numeric value). -/
def parseF32Q (s : Str) : Option ℚ :=
  let sb : ℚ × Str := match s with
    | '-' :: r => (-1, r)
    | '+' :: r => (1, r)
    | r => (1, r)
  match splitOnChar '.' sb.2 with
  | [a] =>
    if a ≠ [] ∧ a.all Char.isDigit then some (sb.1 * (digitsVal a : ℚ))
    else none
  | [a, b] =>
    if (a ≠ [] ∨ b ≠ []) ∧ a.all Char.isDigit ∧ b.all Char.isDigit then
      some (sb.1 * ((digitsVal a : ℚ) + (digitsVal b : ℚ) / (10 : ℚ) ^ b.length))
    else none
  | _ => none

/-! The record types of `system_info.rs`. -/

/-- Record `SystemInfo` (src/system_info.rs lines 8-16). -/
structure SystemInfo where
  hostname : Str
  cpu : Str
  memory : Str
  startup_disk : Str
  graphics : Str
  serial_number : Str
deriving DecidableEq, Repr

/-- Record `Display` (src/system_info.rs lines 23-35). -/
structure Display where
  name : Str
  resolution : Str
  refresh_rate : Str
  color_depth : Str
  is_primary : Bool
  brightness : Str
  rotation : Str
  scale_factor : Str
  color_profile : Str
  connection_type : Str
deriving DecidableEq, Repr

/-- Record `DisplayInfo` (src/system_info.rs lines 18-21). -/
structure DisplayInfo where
  displays : List Display
deriving DecidableEq, Repr

/-- Record `DynamicSystemInfo` (src/system_info.rs lines 37-43). -/
structure DynamicSystemInfo where
  distro_name : Str
  distro_version : Str
  distro_codename : Option Str
  kernel : Str
deriving DecidableEq, Repr

/-- Record `StorageDevice` (src/system_info.rs lines 51-61). -/
structure StorageDevice where
  name : Str
  model : Str
  size : Str
  device_type : Str
  interface : Str
  serial : Str
  temperature : Option Str
  health : Option Str
deriving DecidableEq, Repr

/-- Record `Filesystem` (src/system_info.rs lines 63-72).  The `f32` field
`usage_percent` is modelled as an exact rational. -/
structure Filesystem where
  device : Str
  mountpoint : Str
  filesystem_type : Str
  total_size : Str
  used_size : Str
  available_size : Str
  usage_percent : ℚ
deriving DecidableEq, Repr

/-- Record `StorageInfo` (src/system_info.rs lines 45-49). -/
structure StorageInfo where
  devices : List StorageDevice
  filesystems : List Filesystem
deriving DecidableEq, Repr

/-- Decidable equality of `Except` results, needed to settle concrete
detector runs by `decide`. -/
instance {ε α : Type} [DecidableEq ε] [DecidableEq α] : DecidableEq (Except ε α) := fun x y =>
  match x, y with
  | .error a, .error b => decidable_of_iff (a = b) (by simp)
  | .error _, .ok _ => isFalse (fun hc => by cases hc)
  | .ok _, .error _ => isFalse (fun hc => by cases hc)
  | .ok a, .ok b => decidable_of_iff (a = b) (by simp)

/-- One entry of the `blockdevices` array of `lsblk --json` output, after
`serde_json` parsing: each field is the string value of the JSON key, or
`none` when the key is absent or not a string (the code reads them with
`as_str()`).  The JSON key `type` is called `typ` because `type` cannot be
a field name in Lean. -/
structure BlockDev where
  name : Option Str
  size : Option Str
  typ : Option Str
  model : Option Str
  serial : Option Str
deriving DecidableEq, Repr

/-- Host state: the outcome of every external-command invocation and file
read the detectors perform.  `none` means the spawn/read failed (missing
executable, unreadable file); `some s` is the captured stdout/file text.
For `fastfetch` the JSON/plain-text parsing of the captured output (both
branches of `get_fastfetch_info` return `Ok`) is abstracted to the
key-value map it produces; for `lsblk --json` the `serde_json` parse is
abstracted to the list of `blockdevices` entries, with `none` covering
spawn failure, malformed JSON, and a missing `blockdevices` array alike. -/
structure Host where
  fastfetch : Option (List (Str × Str))
  hostname_env : Option Str
  hostname_cmd : Option Str
  meminfo : Option Str
  dmidecode_memory : Option Str
  lshw_memory : Option Str
  free_h : Option Str
  lsblk_list : Option Str
  dmidecode_baseboard : Option Str
  board_serial : Option Str
  product_serial : Option Str
  lshw_system : Option Str
  machine_id : Option Str
  os_release : Option Str
  uname_r : Option Str
  xrandr : Option Str
  wlr_randr : Option Str
  drm_entries : List (Str × Option Str)
  lsblk_json : Option (List BlockDev)
  lsblk_plain : Option Str
  df : Option Str
  nvme_smart_log : Str → Option Str
  smartctl_a : Str → Option Str
  smartctl_h : Str → Option Str

/-- A host on which every source is unavailable (base point for building
concrete hosts). -/
def Host.empty : Host where
  fastfetch := none
  hostname_env := none
  hostname_cmd := none
  meminfo := none
  dmidecode_memory := none
  lshw_memory := none
  free_h := none
  lsblk_list := none
  dmidecode_baseboard := none
  board_serial := none
  product_serial := none
  lshw_system := none
  machine_id := none
  os_release := none
  uname_r := none
  xrandr := none
  wlr_randr := none
  drm_entries := []
  lsblk_json := none
  lsblk_plain := none
  df := none
  nvme_smart_log := fun _ => none
  smartctl_a := fun _ => none
  smartctl_h := fun _ => none

/-! Extractors of `system_info.rs`, in source order. -/

/-- Function `get_fastfetch_info` (lines 189-210): fails exactly when both
`fastfetch` spawns fail; both parse branches return `Ok`. -/
def get_fastfetch_info (h : Host) : Except Unit (List (Str × Str)) :=
  match h.fastfetch with
  | some m => .ok m
  | none => .error ()

/-- Map built by `get_os_release_info` (lines 355-373) from the text of
`/etc/os-release`: split each line at the first `=`, trim the key, trim
the value and strip surrounding double quotes. -/
def os_release_map (content : Str) : List (Str × Str) :=
  (linesOf content).filterMap (fun line =>
    if containsC line '=' then
      some (trimS (line.takeWhile (fun c => ¬ c = '=')),
        trimMatches '"' (trimS ((line.dropWhile (fun c => ¬ c = '=')).drop 1)))
    else none)

/-- Function `get_os_release_info` (lines 355-373). -/
def get_os_release_info (h : Host) : Except Unit (List (Str × Str)) :=
  match h.os_release with
  | none => .error ()
  | some content => .ok (os_release_map content)

/-- MemTotal scan of `get_memory_info` (lines 380-391): first
`MemTotal:`-line whose second whitespace field parses as `u64` wins;
lines that fail to parse are skipped; no match leaves the total at 0. -/
def memTotalKb : List Str → Nat
  | [] => 0
  | line :: rest =>
    if startsWithS line (str "MemTotal:") then
      match (splitWs line)[1]? with
      | some vp =>
        match parseU64 vp with
        | some kb => kb
        | none => memTotalKb rest
      | none => memTotalKb rest
    else memTotalKb rest

/-- Speed/Type scan of the `dmidecode --type memory` output
(lines 401-421), carrying the mutable `(speed, memory_type)` pair. -/
def dmidecodeMemScan : List Str → Str × Str → Str × Str
  | [], st => st
  | l :: rest, (speed, mtype) =>
    let line := trimS l
    if startsWithS line (str "Speed:") ∧ speed = [] then
      match (splitOnChar ':' line)[1]? with
      | some sp =>
        dmidecodeMemScan rest (replaceS (trimS sp) (str "MT/s") (str "MHz"), mtype)
      | none => dmidecodeMemScan rest (speed, mtype)
    else if startsWithS line (str "Type:") ∧ mtype = [] then
      match (splitOnChar ':' line)[1]? with
      | some tp =>
        let mt := trimS tp
        if mt ≠ [] ∧ mt ≠ str "Unknown" then dmidecodeMemScan rest (speed, mt)
        else dmidecodeMemScan rest (speed, mtype)
      | none => dmidecodeMemScan rest (speed, mtype)
    else dmidecodeMemScan rest (speed, mtype)

/-- Memory-type scan of `lshw -class memory -short` output
(lines 425-441). -/
def lshwMemType : List Str → Option Str
  | [] => none
  | line :: rest =>
    if containsS line (str "memory") ∧
        (containsS line (str "DDR") ∨ containsS line (str "SDRAM")) then
      match (splitWs line).find? (fun s => containsS s (str "DDR")) with
      | some ddr => some ddr
      | none => lshwMemType rest
    else lshwMemType rest

/-- Round `a / d` to the nearest integer, ties to even: the rounding Rust
float formatting applies at the requested precision. -/
def rheDiv (a d : Nat) : Nat :=
  let q := a / d
  let r := a % d
  if 2 * r < d then q
  else if d < 2 * r then q + 1
  else if q % 2 = 0 then q else q + 1

/-- Rust `format!("\x7b:.1\x7d", v)` applied to the exact value `a / d`.
All values formatted by `get_memory_info` are `total_kb / 2 ^ 20` or
`total_kb / 2 ^ 30`; binary divisions of a `u64` below `2 ^ 53` are exact
in `f64`, and Rust formats the exact binary value rounded to one decimal,
ties to even. -/
def fmt1 (a d : Nat) : Str :=
  let n := rheDiv (10 * a) d
  natToStr (n / 10) ++ str "." ++ natToStr (n % 10)

/-- Size/unit formatting of `get_memory_info` (lines 443-450): GiB value
(`total_kb / 1024 / 1024`), promoted to TB when it is at least 1024. -/
def memSizeStr (total_kb : Nat) : Str :=
  if 2 ^ 30 ≤ total_kb then fmt1 total_kb (2 ^ 30) ++ str " TB"
  else fmt1 total_kb (2 ^ 20) ++ str " GB"

/-- Mem: line scan of the `free -h` fallback (lines 465-477). -/
def freeMemLine : List Str → Option Str
  | [] => none
  | line :: rest =>
    if startsWithS line (str "Mem:") then
      match splitWs line with
      | _ :: p1 :: _ => some (p1 ++ str "B RAM")
      | _ => freeMemLine rest
    else freeMemLine rest

/-- The `free -h` fallback of `get_memory_info` (lines 464-481). -/
def freeFallback (h : Host) : Str :=
  match h.free_h with
  | some out => (freeMemLine (linesOf out)).getD (str "Unknown Memory")
  | none => str "Unknown Memory"

/-- Function `get_memory_info` (lines 375-482).  It never returns `Err`. -/
def get_memory_info (h : Host) : Str :=
  match h.meminfo with
  | some content =>
    let total_kb := memTotalKb (linesOf content)
    if 0 < total_kb then
      let st :=
        match h.dmidecode_memory with
        | some out => dmidecodeMemScan (linesOf out) ([], [])
        | none => ([], [])
      let speed := st.1
      let mtype := st.2
      let mtype :=
        if mtype = [] ∨ speed = [] then
          match h.lshw_memory with
          | some out =>
            if mtype = [] then
              match lshwMemType (linesOf out) with
              | some t => t
              | none => mtype
            else mtype
          | none => mtype
        else mtype
      let result := memSizeStr total_kb
      let result := if speed ≠ [] then result ++ str " " ++ speed else result
      if mtype ≠ [] then result ++ str " " ++ mtype else result
    else freeFallback h
  | none => freeFallback h

/-- Row scan of `get_startup_disk` (lines 492-501): first line whose
first whitespace field is `/`; with at least 3 fields the fields from the
third on are joined by spaces, with exactly 2 the second is taken; a bare
`/` line matches neither arm and scanning continues. -/
def startup_disk_of : List Str → Str
  | [] => str "Unknown"
  | line :: rest =>
    match splitWs line with
    | p0 :: _ :: p2 :: ps =>
      if p0 = str "/" then joinSep (str " ") (p2 :: ps) else startup_disk_of rest
    | [p0, p1] =>
      if p0 = str "/" then p1 else startup_disk_of rest
    | _ => startup_disk_of rest

/-- Function `get_startup_disk` (lines 484-504): fails exactly when the
`lsblk` spawn fails. -/
def get_startup_disk (h : Host) : Except Unit Str :=
  match h.lsblk_list with
  | none => .error ()
  | some out => .ok (startup_disk_of (linesOf out))

/-- Function `get_kernel_version` (lines 506-513): fails exactly when the
`uname` spawn fails; otherwise the trimmed stdout, even when empty. -/
def get_kernel_version (h : Host) : Except Unit Str :=
  match h.uname_r with
  | none => .error ()
  | some out => .ok (trimS out)

/-- Serial Number scan of the `dmidecode --type baseboard` output
(lines 524-534): first trimmed `Serial Number:` line whose value (up to
the next colon) is non-empty and not `Not Specified`. -/
def dmidecode_baseboard_serial : List Str → Option Str
  | [] => none
  | l :: rest =>
    let line := trimS l
    if startsWithS line (str "Serial Number:") then
      match (splitOnChar ':' line)[1]? with
      | some sp =>
        let serial := trimS sp
        if serial ≠ [] ∧ serial ≠ str "Not Specified" then some serial
        else dmidecode_baseboard_serial rest
      | none => dmidecode_baseboard_serial rest
    else dmidecode_baseboard_serial rest

/-- Validity test applied to `/sys/class/dmi/id/{board,product}_serial`
content (lines 538-551). -/
def sysfs_serial (content : Str) : Option Str :=
  let serial := trimS content
  if serial ≠ [] ∧ serial ≠ str "Not Specified" then some serial else none

/-- Serial scan of the `lshw -class system -short` output
(lines 558-569). -/
def lshw_system_serial : List Str → Option Str
  | [] => none
  | line :: rest =>
    if containsS line (str "computer") ∨ containsS line (str "system") then
      let parts := splitWs line
      if 2 < parts.length then
        let potential := (parts.getLast?).getD []
        if 4 < potential.length ∧ ¬ containsS potential (str "computer") then
          some potential
        else lshw_system_serial rest
      else lshw_system_serial rest
    else lshw_system_serial rest

/-- Function `get_serial_number` (lines 515-582).  The result `none`
models the Rust panic in the machine-id step: `&machine_id[..8]` is an
out-of-bounds slice when the trimmed content is non-empty but shorter
than 8 characters.  The Rust function itself never returns `Err`. -/
def get_serial_number (h : Host) : Option Str :=
  match h.dmidecode_baseboard.bind (fun out => dmidecode_baseboard_serial (linesOf out)) with
  | some s => some s
  | none =>
  match h.board_serial.bind sysfs_serial with
  | some s => some s
  | none =>
  match h.product_serial.bind sysfs_serial with
  | some s => some s
  | none =>
  match h.lshw_system.bind (fun out => lshw_system_serial (linesOf out)) with
  | some s => some s
  | none =>
  match h.machine_id with
  | some content =>
    let machine_id := trimS content
    if machine_id ≠ [] then
      if 8 ≤ machine_id.length then some (str "machine-" ++ machine_id.take 8)
      else none
    else some (str "Unknown")
  | none => some (str "Unknown")

/-- CPU reordering of `SystemInfo::detect` (lines 96-111): when the raw
string contains `@`, split at every `@`; only with exactly two pieces are
they swapped (trimmed right piece, space, trimmed left piece); otherwise
the string passes through unchanged. -/
def cpu_reorder (cpu_info : Str) : Str :=
  if containsC cpu_info '@' then
    match splitOnChar '@' cpu_info with
    | [p0, p1] => trimS p1 ++ str " " ++ trimS p0
    | _ => cpu_info
  else cpu_info

/-- Hostname fallback chain of `SystemInfo::detect` (lines 82-93). -/
def hostname_of (h : Host) (m : List (Str × Str)) : Str :=
  match lookupL (str "Host") m with
  | some v => v
  | none =>
    match h.hostname_env with
    | some v => v
    | none =>
      match h.hostname_cmd with
      | some out => trimS out
      | none => str "Unknown Host"

/-- Orchestrator `SystemInfo::detect` (lines 75-127).  The outer `Option`
models a panic escaping the call (`none`); within it, `Except` is the
returned `Result`. -/
def SystemInfo.detect (h : Host) : Option (Except Unit SystemInfo) :=
  match get_fastfetch_info h with
  | .error _ => some (.error ())
  | .ok fastfetch_info =>
    let memory_info := get_memory_info h
    match get_startup_disk h with
    | .error _ => some (.error ())
    | .ok startup_disk =>
      match get_serial_number h with
      | none => none
      | some serial_number =>
        some (.ok
          { hostname := hostname_of h fastfetch_info
            cpu :=
              match lookupL (str "CPU") fastfetch_info with
              | some cpu_info => cpu_reorder cpu_info
              | none => str "Unknown CPU"
            memory := memory_info
            startup_disk := startup_disk
            graphics := (lookupL (str "GPU") fastfetch_info).getD (str "Unknown Graphics")
            serial_number := serial_number })

/-- Orchestrator `DynamicSystemInfo::detect` (lines 149-172). -/
def DynamicSystemInfo.detect (h : Host) : Except Unit DynamicSystemInfo :=
  match get_os_release_info h with
  | .error _ => .error ()
  | .ok os_release_info =>
    match get_kernel_version h with
    | .error _ => .error ()
    | .ok kernel =>
      .ok
        { distro_name := (lookupL (str "NAME") os_release_info).getD (str "Unknown Linux")
          distro_version := (lookupL (str "VERSION") os_release_info).getD (str "Unknown Version")
          distro_codename := lookupL (str "VERSION_CODENAME") os_release_info
          kernel := kernel }

/-- Function `detect_connection_type` (lines 1038-1056): case-insensitive
substring match on the display name, checked in source order. -/
def detect_connection_type (display_name : Str) : Option Str :=
  let name_lower := toLowerS display_name
  if containsS name_lower (str "hdmi") then some (str "HDMI")
  else if containsS name_lower (str "dp") ∨ containsS name_lower (str "displayport") then
    some (str "DisplayPort")
  else if containsS name_lower (str "vga") then some (str "VGA")
  else if containsS name_lower (str "dvi") then some (str "DVI")
  else if containsS name_lower (str "usb") then some (str "USB-C")
  else if containsS name_lower (str "lvds") ∨ containsS name_lower (str "edp") then
    some (str "Internal")
  else none

/-- Fresh `Display` record as built at a display header line of the
xrandr / wlr-randr / drm detectors (lines 636-647, 715-726, 774-785):
every data field at its sentinel. -/
def mkDisplay (name : Str) (is_primary : Bool) : Display :=
  { name := name
    resolution := str "Unknown"
    refresh_rate := str "Unknown"
    color_depth := str "Unknown"
    is_primary := is_primary
    brightness := str "Unknown"
    rotation := str "Normal"
    scale_factor := str "1.0"
    color_profile := str "Default"
    connection_type := (detect_connection_type name).getD (str "Unknown") }

/-- Refresh-rate scan over the whitespace fields of a starred xrandr mode
line (lines 658-667): first `*`-containing field that parses as `f64`
after `*` and `+` are removed. -/
def xrandrRefresh : List Str → Option Str
  | [] => none
  | part :: rest =>
    if containsC part '*' then
      let rate := replaceS (replaceS part (str "*") []) (str "+") []
      if isF64 rate then some (rate ++ str " Hz") else xrandrRefresh rest
    else xrandrRefresh rest

/-- Display-header check of `detect_displays_xrandr` (lines 627-649):
a trimmed line containing ` connected` pushes the current display and
opens a new one named by the first whitespace field, primary when the
line contains `primary`. -/
def xrandrHeader (line : Str) (st : Option Display × List Display) :
    Option Display × List Display :=
  if containsS line (str " connected") then
    let acc := st.2 ++ (st.1).toList
    match (splitWs line).head? with
    | some name => (some (mkDisplay name (containsS line (str "primary"))), acc)
    | none => (none, acc)
  else st

/-- Starred-mode-line check of `detect_displays_xrandr` (lines 652-670):
with a current display, a line containing `*` sets the resolution to its
first whitespace field and possibly the refresh rate. -/
def xrandrMode (line : Str) (cur : Option Display) : Option Display :=
  match cur with
  | some d =>
    if containsS line (str "*") then
      match (splitWs line).head? with
      | some resolution_part =>
        let d := { d with resolution := resolution_part }
        some (match xrandrRefresh (splitWs line) with
          | some r => { d with refresh_rate := r }
          | none => d)
      | none => some d
    else some d
  | none => none

/-- Depth check of `detect_displays_xrandr` (lines 673-683): with a
current display, a line containing `Depth:` whose trimmed remainder has
a space sets the color depth. -/
def xrandrDepth (line : Str) (cur : Option Display) : Option Display :=
  match cur with
  | some d =>
    if containsS line (str "Depth:") then
      match afterFirst line (str "Depth:") with
      | some rest0 =>
        let depth_part := trimS rest0
        if containsC depth_part ' ' then
          some { d with
            color_depth := depth_part.takeWhile (fun c => ¬ c = ' ') ++ str " bit" }
        else some d
      | none => some d
    else some d
  | none => none

/-- Per-line state transition of `detect_displays_xrandr`
(lines 623-684): the three sequential checks on the trimmed line. -/
def xrandrStep (st : Option Display × List Display) (l : Str) :
    Option Display × List Display :=
  let line := trimS l
  let st := xrandrHeader line st
  (xrandrDepth line (xrandrMode line st.1), st.2)

/-- Function `detect_displays_xrandr` (lines 612-692) applied to the
captured stdout. -/
def detect_displays_xrandr (out : Str) : List Display :=
  let st := (linesOf out).foldl xrandrStep (none, [])
  st.2 ++ (st.1).toList

/-- Refresh-rate scan of a starred wlr-randr mode line (lines 736-742):
first field containing `Hz`. -/
def wlrRefresh : List Str → Option Str
  | [] => none
  | part :: rest =>
    if containsS part (str "Hz") then some part else wlrRefresh rest

/-- Per-line state transition of `detect_displays_wlr_randr`
(lines 704-746).  The header test `!line.starts_with(' ')` is applied to
the already-trimmed line, so every non-blank line starts a new display. -/
def wlrStep (st : Option Display × List Display) (l : Str) :
    Option Display × List Display :=
  let line := trimS l
  let st :=
    if line ≠ [] then
      (some (mkDisplay (((splitWs line).head?).getD (str "Unknown")) false),
        st.2 ++ (st.1).toList)
    else st
  let cur :=
    match st.1 with
    | some d =>
      if containsS line (str "*") then
        match (splitWs line).head? with
        | some resolution_part =>
          let d := { d with resolution := resolution_part }
          some (match wlrRefresh (splitWs line) with
            | some r => { d with refresh_rate := r }
            | none => d)
        | none => some d
      else some d
    | none => none
  (cur, st.2)

/-- Function `detect_displays_wlr_randr` (lines 694-753) applied to the
captured stdout. -/
def detect_displays_wlr_randr (out : Str) : List Display :=
  let st := (linesOf out).foldl wlrStep (none, [])
  st.2 ++ (st.1).toList

/-- Eligibility of one `/sys/class/drm` entry in the fallback detector
(lines 767-773): name starting with `card` and containing `-`, with a
readable status file whose trimmed content is `connected`. -/
def drmQual (e : Str × Option Str) : Bool :=
  startsWithS e.1 (str "card") && containsC e.1 '-' &&
    (match e.2 with
     | some status => decide (trimS status = str "connected")
     | none => false)

/-- Display name extracted from a drm entry name (line 768):
`split('-').nth(1)` with `Unknown` as default. -/
def drmName (n : Str) : Str := ((splitOnChar '-' n)[1]?).getD (str "Unknown")

/-- Accumulating loop of `detect_displays_fallback` (lines 762-790): each
qualifying entry is pushed with `is_primary = displays.is_empty()`. -/
def drmFold : List (Str × Option Str) → List Display → List Display
  | [], acc => acc
  | e :: es, acc =>
    if drmQual e then drmFold es (acc ++ [mkDisplay (drmName e.1) acc.isEmpty])
    else drmFold es acc

/-- Placeholder record pushed when no drm display is found
(lines 794-807). -/
def fallbackPlaceholder : Display :=
  { name := str "Display"
    resolution := str "Unknown"
    refresh_rate := str "Unknown"
    color_depth := str "Unknown"
    is_primary := true
    brightness := str "Unknown"
    rotation := str "Normal"
    scale_factor := str "1.0"
    color_profile := str "Default"
    connection_type := str "Unknown" }

/-- Function `detect_displays_fallback` (lines 756-810).  It never
returns `Err`. -/
def detect_displays_fallback (h : Host) : List Display :=
  let displays := drmFold h.drm_entries []
  if displays.isEmpty then [fallbackPlaceholder] else displays

/-- Wayland-and-fallback tail of `detect_displays` (lines 601-609). -/
def detect_displays_rest (h : Host) : List Display :=
  match h.wlr_randr with
  | some out =>
    let ws := detect_displays_wlr_randr out
    if ws ≠ [] then ws else detect_displays_fallback h
  | none => detect_displays_fallback h

/-- Function `detect_displays` (lines 591-610): xrandr first, then
wlr-randr, then the drm fallback; spawn failures and empty results both
move to the next source. -/
def detect_displays (h : Host) : List Display :=
  match h.xrandr with
  | some out =>
    let xs := detect_displays_xrandr out
    if xs ≠ [] then xs else detect_displays_rest h
  | none => detect_displays_rest h

/-- Orchestrator `DisplayInfo::detect` (lines 584-589). -/
def DisplayInfo.detect (h : Host) : Except Unit DisplayInfo :=
  .ok { displays := detect_displays h }

/-- Function `detect_storage_interface` (lines 907-919). -/
def detect_storage_interface (device_name : Str) : Str :=
  if startsWithS device_name (str "nvme") then str "NVMe"
  else if startsWithS device_name (str "sd") then str "SATA/USB"
  else if startsWithS device_name (str "hd") then str "IDE/PATA"
  else if startsWithS device_name (str "mmc") then str "eMMC/SD"
  else str "Unknown"

/-- Function `detect_storage_type` (lines 921-940). -/
def detect_storage_type (device_name model : Str) : Str :=
  let model_lower := toLowerS model
  if startsWithS device_name (str "nvme") then str "NVMe SSD"
  else if containsS model_lower (str "ssd") ∨ containsS model_lower (str "solid state") then
    str "SSD"
  else if containsS model_lower (str "hdd") ∨ containsS model_lower (str "hard disk") then
    str "HDD"
  else if startsWithS device_name (str "mmc") then str "eMMC"
  else if startsWithS device_name (str "sd") then str "Disk"
  else str "Unknown"

/-- Temperature scan of `nvme smart-log` output (lines 948-955). -/
def nvmeTempScan : List Str → Option Str
  | [] => none
  | line :: rest =>
    if containsS line (str "temperature") then
      match (splitOnChar ':' line)[1]? with
      | some tp => some (trimS tp)
      | none => nvmeTempScan rest
    else nvmeTempScan rest

/-- Temperature scan of `smartctl -A` output (lines 962-970): column 10
of the first `Temperature_Celsius` line with more than 10 columns. -/
def smartTempScan : List Str → Option Str
  | [] => none
  | line :: rest =>
    if containsS line (str "Temperature_Celsius") then
      let parts := splitWs line
      if 9 < parts.length then some ((parts[9]?).getD [] ++ str "°C")
      else smartTempScan rest
    else smartTempScan rest

/-- Function `get_device_temperature` (lines 942-975): `nvme*` devices
consult `nvme smart-log` only, all others `smartctl -A` only. -/
def get_device_temperature (h : Host) (device_name : Str) : Option Str :=
  if startsWithS device_name (str "nvme") then
    match h.nvme_smart_log device_name with
    | some out => nvmeTempScan (linesOf out)
    | none => none
  else
    match h.smartctl_a device_name with
    | some out => smartTempScan (linesOf out)
    | none => none

/-- Health scan of `smartctl -H` output (lines 982-990). -/
def healthScan : List Str → Option Str
  | [] => none
  | line :: rest =>
    if containsS line (str "SMART overall-health") then
      match (splitOnChar ':' line)[1]? with
      | some hp => some (trimS hp)
      | none => healthScan rest
    else healthScan rest

/-- Function `get_device_health` (lines 977-993). -/
def get_device_health (h : Host) (device_name : Str) : Option Str :=
  match h.smartctl_h device_name with
  | some out => healthScan (linesOf out)
  | none => none

/-- Record built for one accepted block device in the JSON path of
`detect_storage_devices` (lines 841-853). -/
def mkStorageDevice (h : Host) (name model size serial : Str) : StorageDevice :=
  { name := str "/dev/" ++ name
    model := model
    size := size
    device_type := detect_storage_type name model
    interface := detect_storage_interface name
    serial := serial
    temperature := get_device_temperature h name
    health := get_device_health h name }

/-- Device loop over the parsed `blockdevices` array (lines 832-856):
entries kept only when the type is `disk` and the name does not start
with `loop`. -/
def jsonDevices (h : Host) : List BlockDev → List StorageDevice
  | [] => []
  | d :: rest =>
    let name := (d.name).getD (str "Unknown")
    let size := (d.size).getD (str "Unknown")
    let device_type := (d.typ).getD (str "disk")
    let model := (d.model).getD (str "Unknown")
    let serial := (d.serial).getD (str "Unknown")
    if device_type = str "disk" ∧ ¬ startsWithS name (str "loop") then
      mkStorageDevice h name model size serial :: jsonDevices h rest
    else jsonDevices h rest

/-- Row loop of `detect_storage_devices_fallback` (lines 878-902) over
the data lines of plain-text `lsblk`. -/
def fallbackDevRows (h : Host) : List Str → List StorageDevice
  | [] => []
  | line :: rest =>
    match splitWs line with
    | name :: size :: device_type :: modelParts =>
      let model := if modelParts ≠ [] then joinSep (str " ") modelParts else str "Unknown"
      if device_type = str "disk" ∧ ¬ startsWithS name (str "loop") then
        { name := str "/dev/" ++ name
          model := model
          size := size
          device_type := detect_storage_type name model
          interface := detect_storage_interface name
          serial := str "Unknown"
          temperature := get_device_temperature h name
          health := get_device_health h name } :: fallbackDevRows h rest
      else fallbackDevRows h rest
    | _ => fallbackDevRows h rest

/-- Function `detect_storage_devices_fallback` (lines 868-905): fails
exactly when the plain-text `lsblk` spawn fails; the header line is
skipped. -/
def detect_storage_devices_fallback (h : Host) : Except Unit (List StorageDevice) :=
  match h.lsblk_plain with
  | none => .error ()
  | some out => .ok (fallbackDevRows h ((linesOf out).drop 1))

/-- Devices the JSON stage of `detect_storage_devices` yields
(lines 823-858): empty on spawn failure, bad JSON, a missing
`blockdevices` array, or when every entry is filtered out. -/
def json_stage_devices (h : Host) : List StorageDevice :=
  match h.lsblk_json with
  | some bds => jsonDevices h bds
  | none => []

/-- Function `detect_storage_devices` (lines 820-866): JSON path first;
when it yields no devices the plain-text fallback decides the result. -/
def detect_storage_devices (h : Host) : Except Unit (List StorageDevice) :=
  let devices := json_stage_devices h
  if devices.isEmpty then detect_storage_devices_fallback h else .ok devices

/-- Row loop of `detect_filesystems` (lines 1005-1033) over the data
lines of `df -h -T`. -/
def fsRows : List Str → List Filesystem
  | [] => []
  | line :: rest =>
    match splitWs line with
    | device :: fstype :: total :: used :: avail :: pct :: mount :: _ =>
      if ¬ startsWithS device (str "/dev/") ∧ ¬ startsWithS device (str "tmpfs") then
        fsRows rest
      else
        { device := device
          mountpoint := mount
          filesystem_type := fstype
          total_size := total
          used_size := used
          available_size := avail
          usage_percent := (parseF32Q (replaceS pct (str "%") [])).getD 0 } :: fsRows rest
    | _ => fsRows rest

/-- Function `detect_filesystems` (lines 995-1036): fails exactly when
the `df` spawn fails. -/
def detect_filesystems (h : Host) : Except Unit (List Filesystem) :=
  match h.df with
  | none => .error ()
  | some out => .ok (fsRows ((linesOf out).drop 1))

/-- Orchestrator `StorageInfo::detect` (lines 812-818). -/
def StorageInfo.detect (h : Host) : Except Unit StorageInfo :=
  match detect_storage_devices h with
  | .error _ => .error ()
  | .ok devices =>
    match detect_filesystems h with
    | .error _ => .error ()
    | .ok filesystems => .ok { devices := devices, filesystems := filesystems }

/-! General lemmas about the string helpers. -/

theorem splitOnChar_ne_nil (c : Char) (s : Str) : splitOnChar c s ≠ [] := by
  cases s with
  | nil => simp [splitOnChar]
  | cons x xs =>
    simp only [splitOnChar]
    by_cases hx : x = c
    · simp [hx]
    · simp only [if_neg hx]
      cases splitOnChar c xs <;> simp

theorem splitOnChar_of_count_eq_zero (c : Char) (s : Str) (h : s.count c = 0) :
    splitOnChar c s = [s] := by
  induction s with
  | nil => rfl
  | cons x xs ih =>
    simp only [List.count_cons] at h
    by_cases hx : x = c
    · subst hx; simp at h
    · have hc : xs.count c = 0 := by
        have : (if x == c then 1 else 0) = 0 := by simp [hx]
        omega
      simp only [splitOnChar, if_neg hx, ih hc]

theorem splitOnChar_length (c : Char) (s : Str) :
    (splitOnChar c s).length = s.count c + 1 := by
  induction s with
  | nil => rfl
  | cons x xs ih =>
    by_cases hx : x = c
    · subst hx
      simp [splitOnChar, List.count_cons, ih]
    · simp only [splitOnChar, if_neg hx]
      cases hsp : splitOnChar c xs with
      | nil => exact absurd hsp (splitOnChar_ne_nil c xs)
      | cons a t =>
        rw [hsp] at ih
        simp only [List.length_cons] at ih ⊢
        simp [List.count_cons, hx, ih]

theorem splitOnChar_of_count_eq_one (c : Char) (s : Str) (h : s.count c = 1) :
    splitOnChar c s =
      [s.takeWhile (fun x => ¬ x = c), (s.dropWhile (fun x => ¬ x = c)).drop 1] := by
  induction s with
  | nil => simp at h
  | cons x xs ih =>
    by_cases hx : x = c
    · subst hx
      have hc : xs.count x = 0 := by
        simp only [List.count_cons] at h
        have : (if x == x then 1 else 0) = 1 := by simp
        omega
      simp [splitOnChar, splitOnChar_of_count_eq_zero x xs hc,
        List.takeWhile_cons, List.dropWhile_cons]
    · have hc : xs.count c = 1 := by
        simp only [List.count_cons] at h
        have : (if x == c then 1 else 0) = 0 := by simp [hx]
        omega
      simp only [splitOnChar, if_neg hx, ih hc]
      simp [List.takeWhile_cons, List.dropWhile_cons, hx]

theorem containsC_iff_mem (s : Str) (c : Char) : containsC s c = true ↔ c ∈ s := by
  simpa [containsC] using List.elem_iff

theorem containsS_infix_iff (s pat : Str) : containsS s pat = true ↔ pat <:+: s := by
  simp [containsS]

theorem containsS_mono {p q s : Str} (h1 : p <:+: q) (h2 : containsS s q = true) :
    containsS s p = true := by
  rw [containsS_infix_iff] at h2 ⊢
  exact h1.trans h2

theorem not_containsS_mono {p q s : Str} (h1 : p <:+: q)
    (h2 : containsS s p = false) : containsS s q = false := by
  cases hq : containsS s q with
  | false => rfl
  | true => rw [containsS_mono h1 hq] at h2; exact h2

/-! Claim C4: the CPU reorder rule. -/

/-- Modelled from the spec's words for claim C4 (reference for
comparison, not code): split ONCE at the FIRST `@`, output the trimmed
right-hand side, a space, the trimmed left-hand side; strings without `@`
pass through unchanged. -/
def cpu_reorder_first_split (s : Str) : Str :=
  if containsC s '@' then
    trimS ((s.dropWhile (fun c => ¬ c = '@')).drop 1) ++ str " " ++
      trimS (s.takeWhile (fun c => ¬ c = '@'))
  else s

/-- Claim C4, counterexample: on a raw CPU string with two `@` the code
passes the string through unchanged, while the claim demands a single
split at the first `@` and a swap. -/
theorem C4_counterexample :
    containsC (str "a@b@c") '@' = true ∧
    cpu_reorder_first_split (str "a@b@c") = str "b@c a" ∧
    cpu_reorder (str "a@b@c") = str "a@b@c" ∧
    cpu_reorder (str "a@b@c") ≠ cpu_reorder_first_split (str "a@b@c") := by
  decide

/-- Claim C4 as amended: the cpu field of the record built by
`SystemInfo::detect` is `cpu_reorder` of the raw fastfetch CPU string;
a raw string containing exactly one `@` is split there and reordered as
`"<trimmed rhs> <trimmed lhs>"`; a raw string with no `@` or with more
than one `@` passes through unchanged. -/
theorem C4_cpu_reorder :
    (∀ (h : Host) (m : List (Str × Str)) (s : Str) (r : SystemInfo),
      h.fastfetch = some m → lookupL (str "CPU") m = some s →
      SystemInfo.detect h = some (Except.ok r) → r.cpu = cpu_reorder s) ∧
    (∀ s : Str, s.count '@' = 1 →
      cpu_reorder s =
        trimS ((s.dropWhile (fun c => ¬ c = '@')).drop 1) ++ str " " ++
          trimS (s.takeWhile (fun c => ¬ c = '@'))) ∧
    (∀ s : Str, s.count '@' ≠ 1 → cpu_reorder s = s) := by
  refine ⟨?_, ?_, ?_⟩
  · intro h m s r hf hcpu hdet
    simp only [SystemInfo.detect, get_fastfetch_info, hf] at hdet
    cases hdisk : get_startup_disk h with
    | error e => simp [hdisk] at hdet
    | ok disk =>
      rw [hdisk] at hdet
      cases hser : get_serial_number h with
      | none => simp [hser] at hdet
      | some serial =>
        simp only [hser, Option.some.injEq, Except.ok.injEq] at hdet
        rw [← hdet]
        simp [hcpu]
  · intro s hs
    have hmem : containsC s '@' = true := by
      rw [containsC_iff_mem, ← List.count_pos_iff]
      omega
    simp only [cpu_reorder, hmem, if_true, splitOnChar_of_count_eq_one '@' s hs]
  · intro s hs
    rcases Nat.eq_zero_or_pos (s.count '@') with h0 | hpos
    · have hmem : containsC s '@' = false := by
        cases hc : containsC s '@' with
        | false => rfl
        | true =>
          rw [containsC_iff_mem, ← List.count_pos_iff] at hc
          omega
      simp [cpu_reorder, hmem]
    · have h2 : 2 ≤ s.count '@' := by omega
      have hmem : containsC s '@' = true := by
        rw [containsC_iff_mem, ← List.count_pos_iff]
        omega
      have hlen : 3 ≤ (splitOnChar '@' s).length := by
        rw [splitOnChar_length]
        omega
      simp only [cpu_reorder, hmem, if_true]
      cases hsp : splitOnChar '@' s with
      | nil => rfl
      | cons a t =>
        cases t with
        | nil => rfl
        | cons b u =>
          cases u with
          | nil => rw [hsp] at hlen; simp at hlen
          | cons d v => rfl

/-- Witness for C4: the spec's own example, settled by the amended
theorem at a string with exactly one `@`. -/
theorem C4_witness : cpu_reorder (str "Model X @ 3.5GHz") = str "3.5GHz Model X" := by
  rw [C4_cpu_reorder.2.1 (str "Model X @ 3.5GHz") (by decide)]
  decide

/-! Claim C5: memory size formatting and unit promotion. -/

/-- Claim C5, counterexample: a MemTotal of 1073741823 KiB is strictly
below 1024 GiB, so the unit stays GB, but the one-decimal rounding of the
exact value 1023.99999904... produces the display string `1024.0 GB` —
which the claim says is never produced. -/
theorem C5_counterexample :
    memTotalKb (linesOf (str "MemTotal:       1073741823 kB")) = 1073741823 ∧
    1073741823 < 2 ^ 30 ∧
    get_memory_info
      { Host.empty with meminfo := some (str "MemTotal:       1073741823 kB") } =
      str "1024.0 GB" := by
  decide

/-- Claim C5 as amended: with a parsed MemTotal of `T` KiB (`T > 0`) and
no dmidecode/lshw enrichment, the memory string is the exact value
`T / 1024 / 1024` GiB formatted to one decimal (ties to even), with unit
GB when the exact value is below 1024 GiB (`T < 2 ^ 30`) and promoted to
TB (a further division by 1024) when it is at least 1024 GiB; values just
below the boundary may still display as `1024.0 GB`. -/
theorem C5_memory_format (h : Host) (content : Str) (T : Nat)
    (hm : h.meminfo = some content)
    (ht : memTotalKb (linesOf content) = T) (hpos : 0 < T)
    (hdm : h.dmidecode_memory = none) (hlshw : h.lshw_memory = none) :
    get_memory_info h = memSizeStr T ∧
    (2 ^ 30 ≤ T → memSizeStr T = fmt1 T (2 ^ 30) ++ str " TB") ∧
    (T < 2 ^ 30 → memSizeStr T = fmt1 T (2 ^ 20) ++ str " GB") := by
  refine ⟨?_, ?_, ?_⟩
  · simp only [get_memory_info, hm, ht, hdm, hlshw, if_pos hpos]
    simp
  · intro hle
    rw [memSizeStr, if_pos hle]
  · intro hlt
    rw [memSizeStr, if_neg (by omega)]

/-- Witness for C5: the spec's two examples, 1048576 KiB giving
`1.0 GB` and 1100 GiB (1153433600 KiB) giving `1.1 TB`, via the amended
theorem. -/
theorem C5_memory_format_witness :
    get_memory_info
      { Host.empty with meminfo := some (str "MemTotal: 1048576 kB") } =
        str "1.0 GB" ∧
    get_memory_info
      { Host.empty with meminfo := some (str "MemTotal: 1153433600 kB") } =
        str "1.1 TB" := by
  constructor
  · rw [(C5_memory_format _ (str "MemTotal: 1048576 kB") 1048576 rfl (by decide)
      (by decide) rfl rfl).1]
    decide
  · rw [(C5_memory_format _ (str "MemTotal: 1153433600 kB") 1153433600 rfl (by decide)
      (by decide) rfl rfl).1]
    decide

/-! Claim C6: connection-type classification. -/

/-- Claim C6, counterexample: the name `eDP-1` contains `edp`
case-insensitively, so the claim demands `Internal`; but `edp` also
contains `dp`, which is checked earlier, so the code yields
`DisplayPort`. -/
theorem C6_counterexample :
    containsS (toLowerS (str "eDP-1")) (str "edp") = true ∧
    detect_connection_type (str "eDP-1") = some (str "DisplayPort") ∧
    detect_connection_type (str "eDP-1") ≠ some (str "Internal") := by
  decide

/-- Claim C6 as amended: classification is the stated ordered
case-insensitive substring match, but each rule applies only when no
earlier pattern matches; since `edp` contains `dp` as a substring, any
name containing `edp` is never classified `Internal` — only `lvds`
names (free of the earlier patterns) are. -/
theorem C6_connection_type (name : Str) :
    (containsS (toLowerS name) (str "hdmi") = true →
      detect_connection_type name = some (str "HDMI")) ∧
    (containsS (toLowerS name) (str "hdmi") = false →
      (containsS (toLowerS name) (str "dp") = true ∨
        containsS (toLowerS name) (str "displayport") = true) →
      detect_connection_type name = some (str "DisplayPort")) ∧
    (containsS (toLowerS name) (str "hdmi") = false →
      containsS (toLowerS name) (str "dp") = false →
      containsS (toLowerS name) (str "displayport") = false →
      containsS (toLowerS name) (str "vga") = true →
      detect_connection_type name = some (str "VGA")) ∧
    (containsS (toLowerS name) (str "hdmi") = false →
      containsS (toLowerS name) (str "dp") = false →
      containsS (toLowerS name) (str "displayport") = false →
      containsS (toLowerS name) (str "vga") = false →
      containsS (toLowerS name) (str "dvi") = true →
      detect_connection_type name = some (str "DVI")) ∧
    (containsS (toLowerS name) (str "hdmi") = false →
      containsS (toLowerS name) (str "dp") = false →
      containsS (toLowerS name) (str "displayport") = false →
      containsS (toLowerS name) (str "vga") = false →
      containsS (toLowerS name) (str "dvi") = false →
      containsS (toLowerS name) (str "usb") = true →
      detect_connection_type name = some (str "USB-C")) ∧
    (containsS (toLowerS name) (str "hdmi") = false →
      containsS (toLowerS name) (str "dp") = false →
      containsS (toLowerS name) (str "displayport") = false →
      containsS (toLowerS name) (str "vga") = false →
      containsS (toLowerS name) (str "dvi") = false →
      containsS (toLowerS name) (str "usb") = false →
      (containsS (toLowerS name) (str "lvds") = true ∨
        containsS (toLowerS name) (str "edp") = true) →
      detect_connection_type name = some (str "Internal")) ∧
    (containsS (toLowerS name) (str "hdmi") = false →
      containsS (toLowerS name) (str "dp") = false →
      containsS (toLowerS name) (str "displayport") = false →
      containsS (toLowerS name) (str "vga") = false →
      containsS (toLowerS name) (str "dvi") = false →
      containsS (toLowerS name) (str "usb") = false →
      containsS (toLowerS name) (str "lvds") = false →
      detect_connection_type name = none) ∧
    (containsS (toLowerS name) (str "edp") = true →
      containsS (toLowerS name) (str "dp") = true) := by
  have hdpsub : (str "dp") <:+: (str "edp") := by decide
  refine ⟨?_, ?_, ?_, ?_, ?_, ?_, ?_, ?_⟩
  · intro h1
    simp [detect_connection_type, h1]
  · intro h1 h2
    rcases h2 with h | h <;> simp [detect_connection_type, h1, h]
  · intro h1 h2 h2d h3
    simp [detect_connection_type, h1, h2, h2d, h3]
  · intro h1 h2 h2d h3 h4
    simp [detect_connection_type, h1, h2, h2d, h3, h4]
  · intro h1 h2 h2d h3 h4 h5
    simp [detect_connection_type, h1, h2, h2d, h3, h4, h5]
  · intro h1 h2 h2d h3 h4 h5 h6
    have hlvds : containsS (toLowerS name) (str "lvds") = true := by
      rcases h6 with h | h
      · exact h
      · rw [containsS_mono hdpsub h] at h2; exact absurd h2 (by simp)
    simp [detect_connection_type, h1, h2, h2d, h3, h4, h5, hlvds]
  · intro h1 h2 h2d h3 h4 h5 h6
    have hedp := not_containsS_mono hdpsub h2
    simp [detect_connection_type, h1, h2, h2d, h3, h4, h5, h6, hedp]
  · intro h
    exact containsS_mono hdpsub h

/-- Witness for C6: amended-theorem applications at `LVDS-1` (Internal)
and at `HDMI-A-1` (HDMI). -/
theorem C6_witness :
    detect_connection_type (str "LVDS-1") = some (str "Internal") ∧
    detect_connection_type (str "HDMI-A-1") = some (str "HDMI") := by
  constructor
  · exact (C6_connection_type (str "LVDS-1")).2.2.2.2.2.1 (by decide) (by decide)
      (by decide) (by decide) (by decide) (by decide) (Or.inl (by decide))
  · exact (C6_connection_type (str "HDMI-A-1")).1 (by decide)

/-! Claim C7: storage-device classification and exclusion. -/

/-- Keep-test applied to one `blockdevices` entry by the loop of
`detect_storage_devices` (line 840): type `disk` and name not starting
with `loop`. -/
def blockDevKept (d : BlockDev) : Bool :=
  decide ((d.typ).getD (str "disk") = str "disk") &&
    ! startsWithS ((d.name).getD (str "Unknown")) (str "loop")

/-- The record the JSON loop builds from one kept entry. -/
def mkFromBlockDev (h : Host) (d : BlockDev) : StorageDevice :=
  mkStorageDevice h ((d.name).getD (str "Unknown")) ((d.model).getD (str "Unknown"))
    ((d.size).getD (str "Unknown")) ((d.serial).getD (str "Unknown"))

theorem jsonDevices_eq_filter_map (h : Host) (bds : List BlockDev) :
    jsonDevices h bds = (bds.filter blockDevKept).map (mkFromBlockDev h) := by
  induction bds with
  | nil => rfl
  | cons d rest ih =>
    by_cases h1 : (d.typ).getD (str "disk") = str "disk"
    · by_cases h2 : startsWithS ((d.name).getD (str "Unknown")) (str "loop") = true
      · have hk : blockDevKept d = false := by simp [blockDevKept, h1, h2]
        simp [jsonDevices, h1, h2, List.filter_cons, hk, ih]
      · have hk : blockDevKept d = true := by
          simp [blockDevKept, h1]
          simpa using h2
        simp [jsonDevices, h1, h2, List.filter_cons, hk, ih, mkFromBlockDev]
    · have hk : blockDevKept d = false := by simp [blockDevKept, h1]
      simp [jsonDevices, h1, List.filter_cons, hk, ih]

theorem fallbackDevRows_mem (h : Host) (rows : List Str) (d : StorageDevice)
    (hd : d ∈ fallbackDevRows h rows) :
    ∃ line ∈ rows, ∃ name size dtype mps,
      splitWs line = name :: size :: dtype :: mps ∧
      dtype = str "disk" ∧ startsWithS name (str "loop") = false ∧
      d.name = str "/dev/" ++ name := by
  induction rows with
  | nil => simp [fallbackDevRows] at hd
  | cons line rest ih =>
    simp only [fallbackDevRows] at hd
    split at hd
    · rename_i name size dtype mps heq
      split at hd
      · rename_i hcond
        rcases List.mem_cons.mp hd with hdev | hdev
        · refine ⟨line, by simp, name, size, dtype, mps, heq, hcond.1, ?_, by rw [hdev]⟩
          simpa using hcond.2
        · obtain ⟨l, hl, rest'⟩ := ih hdev
          exact ⟨l, List.mem_cons_of_mem _ hl, rest'⟩
      · obtain ⟨l, hl, rest'⟩ := ih hd
        exact ⟨l, List.mem_cons_of_mem _ hl, rest'⟩
    · obtain ⟨l, hl, rest'⟩ := ih hd
      exact ⟨l, List.mem_cons_of_mem _ hl, rest'⟩

/-- Claim C7: storage type/interface classification as a pure function of
device name and model, in the code's check order, and exclusion of loop
and non-disk devices from both the JSON path and the plain-text fallback
path. -/
theorem C7_storage_classification :
    (∀ name model : Str, startsWithS name (str "nvme") = true →
      detect_storage_type name model = str "NVMe SSD" ∧
      detect_storage_interface name = str "NVMe") ∧
    (∀ name model : Str, startsWithS name (str "nvme") = false →
      (containsS (toLowerS model) (str "ssd") = true ∨
        containsS (toLowerS model) (str "solid state") = true) →
      detect_storage_type name model = str "SSD") ∧
    (∀ name model : Str, startsWithS name (str "nvme") = false →
      containsS (toLowerS model) (str "ssd") = false →
      containsS (toLowerS model) (str "solid state") = false →
      (containsS (toLowerS model) (str "hdd") = true ∨
        containsS (toLowerS model) (str "hard disk") = true) →
      detect_storage_type name model = str "HDD") ∧
    (∀ name model : Str, startsWithS name (str "nvme") = false →
      containsS (toLowerS model) (str "ssd") = false →
      containsS (toLowerS model) (str "solid state") = false →
      containsS (toLowerS model) (str "hdd") = false →
      containsS (toLowerS model) (str "hard disk") = false →
      startsWithS name (str "mmc") = true →
      detect_storage_type name model = str "eMMC") ∧
    (∀ name model : Str, startsWithS name (str "nvme") = false →
      containsS (toLowerS model) (str "ssd") = false →
      containsS (toLowerS model) (str "solid state") = false →
      containsS (toLowerS model) (str "hdd") = false →
      containsS (toLowerS model) (str "hard disk") = false →
      startsWithS name (str "mmc") = false →
      startsWithS name (str "sd") = true →
      detect_storage_type name model = str "Disk" ∧
      detect_storage_interface name = str "SATA/USB") ∧
    (∀ name model : Str, startsWithS name (str "nvme") = false →
      containsS (toLowerS model) (str "ssd") = false →
      containsS (toLowerS model) (str "solid state") = false →
      containsS (toLowerS model) (str "hdd") = false →
      containsS (toLowerS model) (str "hard disk") = false →
      startsWithS name (str "mmc") = false →
      startsWithS name (str "sd") = false →
      detect_storage_type name model = str "Unknown") ∧
    (∀ (h : Host) (bds : List BlockDev),
      jsonDevices h bds = (bds.filter blockDevKept).map (mkFromBlockDev h)) ∧
    (∀ (h : Host) (rows : List Str) (d : StorageDevice),
      d ∈ fallbackDevRows h rows →
      ∃ line ∈ rows, ∃ name size dtype mps,
        splitWs line = name :: size :: dtype :: mps ∧
        dtype = str "disk" ∧ startsWithS name (str "loop") = false ∧
        d.name = str "/dev/" ++ name) := by
  refine ⟨?_, ?_, ?_, ?_, ?_, ?_, jsonDevices_eq_filter_map, fallbackDevRows_mem⟩
  · intro name model h1
    constructor
    · simp [detect_storage_type, h1]
    · simp [detect_storage_interface, h1]
  · intro name model h1 h2
    rcases h2 with h | h <;> simp [detect_storage_type, h1, h]
  · intro name model h1 h2 h3 h4
    rcases h4 with h | h <;> simp [detect_storage_type, h1, h2, h3, h]
  · intro name model h1 h2 h3 h4 h5 h6
    simp [detect_storage_type, h1, h2, h3, h4, h5, h6]
  · intro name model h1 h2 h3 h4 h5 h6 h7
    constructor
    · simp [detect_storage_type, h1, h2, h3, h4, h5, h6, h7]
    · simp [detect_storage_interface, h1, h7]
  · intro name model h1 h2 h3 h4 h5 h6 h7
    simp [detect_storage_type, h1, h2, h3, h4, h5, h6, h7]

/-- Witness for C7: the spec's examples (`nvme0n1`, `sda` with an SSD
model) and exclusion of a `loop0` entry from a concrete `lsblk --json`
device list. -/
theorem C7_witness :
    detect_storage_type (str "nvme0n1") (str "WDC X") = str "NVMe SSD" ∧
    detect_storage_interface (str "nvme0n1") = str "NVMe" ∧
    detect_storage_type (str "sda") (str "Samsung SSD 870") = str "SSD" ∧
    jsonDevices Host.empty
      [⟨some (str "loop0"), some (str "8G"), some (str "loop"), none, none⟩,
       ⟨some (str "sda"), some (str "1T"), some (str "disk"),
         some (str "Samsung SSD 870"), some (str "S123")⟩] =
      [mkFromBlockDev Host.empty
        ⟨some (str "sda"), some (str "1T"), some (str "disk"),
          some (str "Samsung SSD 870"), some (str "S123")⟩] := by
  refine ⟨(C7_storage_classification.1 _ (str "WDC X") (by decide)).1,
    (C7_storage_classification.1 (str "nvme0n1") (str "WDC X") (by decide)).2,
    C7_storage_classification.2.1 _ _ (by decide) (Or.inl (by decide)), ?_⟩
  rw [C7_storage_classification.2.2.2.2.2.2.1]
  decide

/-! Claim C8: the serial-number fallback chain. -/

/-- Claim C8: the serial number is taken from the sources in source
order — dmidecode baseboard Serial Number line, board_serial,
product_serial, lshw, machine-id — the first source yielding a value
winning; when the trimmed machine-id is non-empty and at least 8
characters long it yields `machine-` followed by its first 8 characters;
when every source fails the result is `Unknown`. -/
theorem C8_serial_priority (h : Host) :
    (∀ s, (h.dmidecode_baseboard.bind fun out => dmidecode_baseboard_serial (linesOf out)) = some s →
      get_serial_number h = some s) ∧
    ((h.dmidecode_baseboard.bind fun out => dmidecode_baseboard_serial (linesOf out)) = none →
      ∀ s, h.board_serial.bind sysfs_serial = some s →
      get_serial_number h = some s) ∧
    ((h.dmidecode_baseboard.bind fun out => dmidecode_baseboard_serial (linesOf out)) = none →
      h.board_serial.bind sysfs_serial = none →
      ∀ s, h.product_serial.bind sysfs_serial = some s →
      get_serial_number h = some s) ∧
    ((h.dmidecode_baseboard.bind fun out => dmidecode_baseboard_serial (linesOf out)) = none →
      h.board_serial.bind sysfs_serial = none →
      h.product_serial.bind sysfs_serial = none →
      ∀ s, (h.lshw_system.bind fun out => lshw_system_serial (linesOf out)) = some s →
      get_serial_number h = some s) ∧
    ((h.dmidecode_baseboard.bind fun out => dmidecode_baseboard_serial (linesOf out)) = none →
      h.board_serial.bind sysfs_serial = none →
      h.product_serial.bind sysfs_serial = none →
      (h.lshw_system.bind fun out => lshw_system_serial (linesOf out)) = none →
      ∀ c, h.machine_id = some c → trimS c ≠ [] → 8 ≤ (trimS c).length →
      get_serial_number h = some (str "machine-" ++ (trimS c).take 8)) ∧
    ((h.dmidecode_baseboard.bind fun out => dmidecode_baseboard_serial (linesOf out)) = none →
      h.board_serial.bind sysfs_serial = none →
      h.product_serial.bind sysfs_serial = none →
      (h.lshw_system.bind fun out => lshw_system_serial (linesOf out)) = none →
      ∀ c, h.machine_id = some c → trimS c = [] →
      get_serial_number h = some (str "Unknown")) ∧
    ((h.dmidecode_baseboard.bind fun out => dmidecode_baseboard_serial (linesOf out)) = none →
      h.board_serial.bind sysfs_serial = none →
      h.product_serial.bind sysfs_serial = none →
      (h.lshw_system.bind fun out => lshw_system_serial (linesOf out)) = none →
      h.machine_id = none →
      get_serial_number h = some (str "Unknown")) := by
  refine ⟨?_, ?_, ?_, ?_, ?_, ?_, ?_⟩
  · intro s h1
    simp [get_serial_number, h1]
  · intro h1 s h2
    simp [get_serial_number, h1, h2]
  · intro h1 h2 s h3
    simp [get_serial_number, h1, h2, h3]
  · intro h1 h2 h3 s h4
    simp [get_serial_number, h1, h2, h3, h4]
  · intro h1 h2 h3 h4 c h5 h6 h7
    simp [get_serial_number, h1, h2, h3, h4, h5, h6, h7]
  · intro h1 h2 h3 h4 c h5 h6
    simp [get_serial_number, h1, h2, h3, h4, h5, h6]
  · intro h1 h2 h3 h4 h5
    simp [get_serial_number, h1, h2, h3, h4, h5]

/-- Witness for C8: a host with both a dmidecode serial and a sysfs board
serial available yields the dmidecode one; the later source is not
consulted. -/
theorem C8_witness :
    get_serial_number
      { Host.empty with
        dmidecode_baseboard := some (str "Base Board Information\n\tSerial Number: ABC123\n"),
        board_serial := some (str "ZZZ999") } = some (str "ABC123") :=
  (C8_serial_priority _).1 (str "ABC123") (by decide)

/-! Claim C2: extractors return without panicking. -/

/-- Claim C2 fails on the code: with every earlier serial source
unavailable and `/etc/machine-id` holding a non-empty trimmed value
shorter than 8 characters, `get_serial_number` panics
(`&machine_id[..8]` is an out-of-bounds byte slice), modelled as `none`;
the claim (and the spec's no-crash policy) says a value is always
returned. -/
theorem C2_machine_id_panic :
    get_serial_number { Host.empty with machine_id := some (str "abc\n") } = none ∧
    trimS (str "abc\n") ≠ [] ∧ (trimS (str "abc\n")).length < 8 := by
  decide

/-! Claim C3: populated-field invariant. -/

/-- Claim C3, counterexample: when `uname -r` succeeds with
whitespace-only output the kernel field of the returned record is the
empty string; when `/etc/os-release` carries `NAME=""` the distro name
field is the empty string; and a drm connector entry named `card0-`
yields a `Display` whose name field is the empty string — none of these
is a sentinel. -/
theorem C3_counterexample :
    DynamicSystemInfo.detect
      { Host.empty with
        os_release := some (str "NAME=\"\"\nVERSION=\"24.04\""),
        uname_r := some (str "\n") } =
      Except.ok
        { distro_name := ([] : Str), distro_version := str "24.04",
          distro_codename := none, kernel := ([] : Str) } ∧
    (detect_displays_fallback
      { Host.empty with
        drm_entries := [(str "card0-", some (str "connected"))] }).map
      (fun d => d.name) = [([] : Str)] := by
  decide

/-- Claim C3 as amended: fields whose source lacks the key take the
non-empty sentinels, but fields copied verbatim from a successful source
can be empty.  For `DynamicSystemInfo`: the kernel field equals the
trimmed `uname -r` output even when that is empty; the distro name and
version fields equal the os-release values of `NAME`/`VERSION` when the
key is present — empty exactly when that value is empty — and the
non-empty sentinels exactly when the key is absent; the codename is the
`VERSION_CODENAME` value when present. -/
theorem C3_sentinel_fields (h : Host) (content out : Str)
    (h1 : h.os_release = some content) (h2 : h.uname_r = some out) :
    ∃ r, DynamicSystemInfo.detect h = Except.ok r ∧
      r.kernel = trimS out ∧
      r.distro_name =
        (lookupL (str "NAME") (os_release_map content)).getD (str "Unknown Linux") ∧
      r.distro_version =
        (lookupL (str "VERSION") (os_release_map content)).getD (str "Unknown Version") ∧
      r.distro_codename = lookupL (str "VERSION_CODENAME") (os_release_map content) ∧
      (lookupL (str "NAME") (os_release_map content) = none →
        r.distro_name = str "Unknown Linux") ∧
      (lookupL (str "VERSION") (os_release_map content) = none →
        r.distro_version = str "Unknown Version") ∧
      (r.distro_name = [] ↔ lookupL (str "NAME") (os_release_map content) = some []) ∧
      (r.distro_version = [] ↔ lookupL (str "VERSION") (os_release_map content) = some []) ∧
      str "Unknown Linux" ≠ ([] : Str) ∧ str "Unknown Version" ≠ ([] : Str) := by
  refine ⟨{ distro_name := (lookupL (str "NAME") (os_release_map content)).getD (str "Unknown Linux"),
            distro_version := (lookupL (str "VERSION") (os_release_map content)).getD (str "Unknown Version"),
            distro_codename := lookupL (str "VERSION_CODENAME") (os_release_map content),
            kernel := trimS out },
    ?_, rfl, rfl, rfl, rfl, ?_, ?_, ?_, ?_, by decide, by decide⟩
  · simp [DynamicSystemInfo.detect, get_os_release_info, h1, get_kernel_version, h2]
  · intro hnone
    simp [hnone]
  · intro hnone
    simp [hnone]
  · constructor
    · intro hempty
      cases hl : lookupL (str "NAME") (os_release_map content) with
      | none =>
        rw [hl] at hempty
        simp only [Option.getD] at hempty
        exact absurd hempty (by decide)
      | some v =>
        rw [hl] at hempty
        simp only [Option.getD] at hempty
        rw [hempty]
    · intro hsome
      rw [hsome]
      rfl
  · constructor
    · intro hempty
      cases hl : lookupL (str "VERSION") (os_release_map content) with
      | none =>
        rw [hl] at hempty
        simp only [Option.getD] at hempty
        exact absurd hempty (by decide)
      | some v =>
        rw [hl] at hempty
        simp only [Option.getD] at hempty
        rw [hempty]
    · intro hsome
      rw [hsome]
      rfl

/-- Witness for C3: the amended theorem at a concrete host whose
os-release has no NAME/VERSION keys. -/
theorem C3_witness :
    ∃ r, DynamicSystemInfo.detect
      { Host.empty with
        os_release := some (str "ID=arch"),
        uname_r := some (str "6.8.0-generic\n") } = Except.ok r ∧
      r.kernel = trimS (str "6.8.0-generic\n") ∧
      r.distro_name =
        (lookupL (str "NAME") (os_release_map (str "ID=arch"))).getD (str "Unknown Linux") ∧
      r.distro_version =
        (lookupL (str "VERSION") (os_release_map (str "ID=arch"))).getD (str "Unknown Version") ∧
      r.distro_codename = lookupL (str "VERSION_CODENAME") (os_release_map (str "ID=arch")) ∧
      (lookupL (str "NAME") (os_release_map (str "ID=arch")) = none →
        r.distro_name = str "Unknown Linux") ∧
      (lookupL (str "VERSION") (os_release_map (str "ID=arch")) = none →
        r.distro_version = str "Unknown Version") ∧
      (r.distro_name = [] ↔ lookupL (str "NAME") (os_release_map (str "ID=arch")) = some []) ∧
      (r.distro_version = [] ↔
        lookupL (str "VERSION") (os_release_map (str "ID=arch")) = some []) ∧
      str "Unknown Linux" ≠ ([] : Str) ∧ str "Unknown Version" ≠ ([] : Str) :=
  C3_sentinel_fields _ _ _ rfl rfl

/-! Claim C1: which failures surface as orchestrator errors. -/

/-- A host whose `/etc/os-release` is perfectly readable but whose
`fastfetch` binary is missing (both spawn attempts fail). -/
def C1host : Host :=
  { Host.empty with
    os_release := some (str "NAME=Linux"),
    uname_r := some (str "6.8.0"),
    machine_id := some (str "0123456789abcdef") }

/-- Claim C1, counterexample: on `C1host` the distro orchestrator
succeeds (os-release is readable), yet `SystemInfo::detect` returns an
error because the fastfetch spawn failed — so total inability to read
`/etc/os-release` is not the only condition under which an orchestrator
errors. -/
theorem C1_counterexample :
    C1host.os_release = some (str "NAME=Linux") ∧
    DynamicSystemInfo.detect C1host =
      Except.ok
        { distro_name := str "Linux", distro_version := str "Unknown Version",
          distro_codename := none, kernel := str "6.8.0" } ∧
    SystemInfo.detect C1host = some (Except.error ()) := by
  decide

/-- Claim C1 as amended: no orchestrator errors for partial detection,
but os-release is not the only mandatory source.  `SystemInfo::detect`
errors exactly when the fastfetch spawns (both formats) or the lsblk
spawn fail; `DynamicSystemInfo::detect` exactly when `/etc/os-release`
is unreadable or the uname spawn fails; `DisplayInfo::detect` never
errors; `StorageInfo::detect` exactly when the JSON stage found no
device and the plain lsblk spawn fails, or the df spawn fails.  Every
other unavailable source only produces sentinel defaults. -/
theorem C1_error_conditions (h : Host) :
    (SystemInfo.detect h = some (Except.error ()) ↔
      (h.fastfetch = none ∨ h.lsblk_list = none)) ∧
    (DynamicSystemInfo.detect h = Except.error () ↔
      (h.os_release = none ∨ h.uname_r = none)) ∧
    (∃ d, DisplayInfo.detect h = Except.ok d) ∧
    (StorageInfo.detect h = Except.error () ↔
      ((json_stage_devices h = [] ∧ h.lsblk_plain = none) ∨ h.df = none)) := by
  refine ⟨?_, ?_, ⟨_, rfl⟩, ?_⟩
  · cases hf : h.fastfetch with
    | none => simp [SystemInfo.detect, get_fastfetch_info, hf]
    | some m =>
      cases hl : h.lsblk_list with
      | none => simp [SystemInfo.detect, get_fastfetch_info, get_startup_disk, hf, hl]
      | some out =>
        cases hs : get_serial_number h with
        | none =>
          simp [SystemInfo.detect, get_fastfetch_info, get_startup_disk, hf, hl, hs]
        | some s =>
          simp [SystemInfo.detect, get_fastfetch_info, get_startup_disk, hf, hl, hs]
  · cases ho : h.os_release with
    | none => simp [DynamicSystemInfo.detect, get_os_release_info, ho]
    | some c =>
      cases hu : h.uname_r with
      | none =>
        simp [DynamicSystemInfo.detect, get_os_release_info, get_kernel_version, ho, hu]
      | some out =>
        simp [DynamicSystemInfo.detect, get_os_release_info, get_kernel_version, ho, hu]
  · by_cases hj : json_stage_devices h = []
    · cases hp : h.lsblk_plain with
      | none =>
        simp [StorageInfo.detect, detect_storage_devices,
          detect_storage_devices_fallback, hj, hp]
      | some out =>
        cases hd : h.df with
        | none =>
          simp [StorageInfo.detect, detect_storage_devices,
            detect_storage_devices_fallback, detect_filesystems, hj, hp, hd]
        | some dfout =>
          simp [StorageInfo.detect, detect_storage_devices,
            detect_storage_devices_fallback, detect_filesystems, hj, hp, hd]
    · cases hd : h.df with
      | none =>
        simp [StorageInfo.detect, detect_storage_devices, detect_filesystems,
          List.isEmpty_iff, hj, hd]
      | some dfout =>
        simp [StorageInfo.detect, detect_storage_devices, detect_filesystems,
          List.isEmpty_iff, hj, hd]

/-! Claim C10: the display list is never empty; fallback primary flag. -/

/-- Head-primary shape: an empty list, or a list whose head is the only
primary display. -/
def primaryShape : List Display → Prop
  | [] => True
  | d :: rest => d.is_primary = true ∧ ∀ x ∈ rest, x.is_primary = false

theorem drmFold_shape (es : List (Str × Option Str)) (acc : List Display)
    (hacc : primaryShape acc) : primaryShape (drmFold es acc) := by
  induction es generalizing acc with
  | nil => exact hacc
  | cons e rest ih =>
    simp only [drmFold]
    by_cases hq : drmQual e = true
    · rw [if_pos hq]
      apply ih
      cases acc with
      | nil => simp [primaryShape, mkDisplay]
      | cons d t =>
        obtain ⟨hd, ht⟩ := hacc
        refine ⟨hd, ?_⟩
        intro x hx
        rcases List.mem_append.mp hx with hx2 | hx2
        · exact ht x hx2
        · rw [List.mem_singleton.mp hx2]
          simp [mkDisplay]
    · rw [if_neg hq]
      exact ih _ hacc

theorem drmFold_of_no_qual (es : List (Str × Option Str)) (acc : List Display)
    (hn : ∀ e ∈ es, drmQual e = false) : drmFold es acc = acc := by
  induction es with
  | nil => rfl
  | cons e rest ih =>
    have he : drmQual e = false := hn e (by simp)
    simp only [drmFold, he]
    exact ih (fun x hx => hn x (List.mem_cons_of_mem _ hx))

theorem detect_displays_fallback_ne_nil (h : Host) :
    detect_displays_fallback h ≠ [] := by
  unfold detect_displays_fallback
  by_cases he : (drmFold h.drm_entries []).isEmpty
  · rw [if_pos he]; simp
  · rw [if_neg he]; simpa [List.isEmpty_iff] using he

/-- Claim C10: `DisplayInfo::detect` always succeeds with a non-empty
display list; when the xrandr and wlr-randr paths yield nothing and no
drm connector is eligible, the list is exactly the placeholder record
(named `Display`, primary, all other fields sentinels); and in the drm
fallback the first connected display found — and only it — is primary. -/
theorem C10_display_nonempty (h : Host) :
    (∃ di, DisplayInfo.detect h = Except.ok di ∧
      di.displays = detect_displays h ∧ di.displays ≠ []) ∧
    ((∀ out, h.xrandr = some out → detect_displays_xrandr out = []) →
     (∀ out, h.wlr_randr = some out → detect_displays_wlr_randr out = []) →
     (∀ e ∈ h.drm_entries, drmQual e = false) →
     detect_displays h = [fallbackPlaceholder]) ∧
    fallbackPlaceholder =
      { name := str "Display", resolution := str "Unknown",
        refresh_rate := str "Unknown", color_depth := str "Unknown",
        is_primary := true, brightness := str "Unknown",
        rotation := str "Normal", scale_factor := str "1.0",
        color_profile := str "Default", connection_type := str "Unknown" } ∧
    (∀ d ds, drmFold h.drm_entries [] = d :: ds →
      d.is_primary = true ∧ ∀ x ∈ ds, x.is_primary = false) := by
  have hrest : detect_displays_rest h ≠ [] := by
    unfold detect_displays_rest
    cases hw : h.wlr_randr with
    | none => exact detect_displays_fallback_ne_nil h
    | some out =>
      by_cases hne : detect_displays_wlr_randr out ≠ []
      · simpa [hne]
      · simp only [hne, if_neg]
        simpa using detect_displays_fallback_ne_nil h
  have hne : detect_displays h ≠ [] := by
    unfold detect_displays
    cases hx : h.xrandr with
    | none => exact hrest
    | some out =>
      by_cases hxe : detect_displays_xrandr out ≠ []
      · simpa [hxe]
      · simpa [hxe] using hrest
  refine ⟨⟨_, rfl, rfl, hne⟩, ?_, by decide, ?_⟩
  · intro h1 h2 h3
    have hfold := drmFold_of_no_qual h.drm_entries [] h3
    have hfb : detect_displays_fallback h = [fallbackPlaceholder] := by
      unfold detect_displays_fallback
      rw [hfold]
      simp
    have hr : detect_displays_rest h = [fallbackPlaceholder] := by
      unfold detect_displays_rest
      cases hw : h.wlr_randr with
      | none => exact hfb
      | some out => simp [h2 out hw, hfb]
    unfold detect_displays
    cases hx : h.xrandr with
    | none => exact hr
    | some out => simp [h1 out hx, hr]
  · intro d ds heq
    have := drmFold_shape h.drm_entries [] (by trivial)
    rw [heq] at this
    exact this

/-- Witness for C10: the empty host gets the single placeholder, and a
concrete two-connector drm fallback marks exactly the first display
primary (note the drm entry name `card0-eDP-1` yields display name
`eDP`, the piece between the first and second dash). -/
theorem C10_witness :
    detect_displays Host.empty = [fallbackPlaceholder] ∧
    ((mkDisplay (str "eDP") true).is_primary = true ∧
      ∀ x ∈ [mkDisplay (str "HDMI") false], x.is_primary = false) := by
  constructor
  · exact (C10_display_nonempty Host.empty).2.1
      (fun _ hout => by simp [Host.empty] at hout)
      (fun _ hout => by simp [Host.empty] at hout)
      (by simp [Host.empty])
  · exact (C10_display_nonempty
      { Host.empty with
        drm_entries := [(str "card0-eDP-1", some (str "connected\n")),
          (str "card1-HDMI-A-1", some (str "connected"))] }).2.2.2 _ _ (by decide)

/-! Claim C9: xrandr parsing of two connected blocks. -/

theorem xrandrDepth_fields (line : Str) (d : Display) :
    ∃ d', xrandrDepth line (some d) = some d' ∧
      d'.name = d.name ∧ d'.is_primary = d.is_primary ∧
      d'.resolution = d.resolution := by
  unfold xrandrDepth
  cases h3 : containsS line (str "Depth:") with
  | false => exact ⟨d, by simp [h3], rfl, rfl, rfl⟩
  | true =>
    cases ha : afterFirst line (str "Depth:") with
    | none => exact ⟨d, by simp [h3, ha], rfl, rfl, rfl⟩
    | some rest0 =>
      cases h4 : containsC (trimS rest0) ' ' with
      | false => exact ⟨d, by simp [h3, ha, h4], rfl, rfl, rfl⟩
      | true =>
        exact ⟨{ d with
          color_depth := (trimS rest0).takeWhile (fun c => ¬ c = ' ') ++ str " bit" },
          by simp [h3, ha, h4], rfl, rfl, rfl⟩

theorem xrandrStep_none (l : Str) (acc : List Display)
    (h1 : containsS (trimS l) (str " connected") = false) :
    xrandrStep (none, acc) l = (none, acc) := by
  simp [xrandrStep, xrandrHeader, xrandrMode, xrandrDepth, h1]

theorem xrandrStep_neutral (l : Str) (d : Display) (acc : List Display)
    (h1 : containsS (trimS l) (str " connected") = false)
    (h2 : containsS (trimS l) (str "*") = false) :
    ∃ d', xrandrStep (some d, acc) l = (some d', acc) ∧
      d'.name = d.name ∧ d'.is_primary = d.is_primary ∧
      d'.resolution = d.resolution := by
  have hh : xrandrHeader (trimS l) (some d, acc) = (some d, acc) := by
    simp [xrandrHeader, h1]
  have hm : xrandrMode (trimS l) (some d) = some d := by
    simp [xrandrMode, h2]
  obtain ⟨d', hd, hn, hp, hr⟩ := xrandrDepth_fields (trimS l) d
  exact ⟨d', by simp [xrandrStep, hh, hm, hd], hn, hp, hr⟩

theorem xrandrStep_conn (l : Str) (cur : Option Display) (acc : List Display) (n : Str)
    (h1 : containsS (trimS l) (str " connected") = true)
    (h2 : containsS (trimS l) (str "*") = false)
    (hn : (splitWs (trimS l)).head? = some n) :
    ∃ d, xrandrStep (cur, acc) l = (some d, acc ++ cur.toList) ∧
      d.name = n ∧ d.is_primary = containsS (trimS l) (str "primary") ∧
      d.resolution = str "Unknown" := by
  have hh : xrandrHeader (trimS l) (cur, acc) =
      (some (mkDisplay n (containsS (trimS l) (str "primary"))), acc ++ cur.toList) := by
    simp [xrandrHeader, h1, hn]
  have hm : xrandrMode (trimS l)
      (some (mkDisplay n (containsS (trimS l) (str "primary")))) =
      some (mkDisplay n (containsS (trimS l) (str "primary"))) := by
    simp [xrandrMode, h2]
  obtain ⟨d', hd, hnm, hp, hr⟩ :=
    xrandrDepth_fields (trimS l) (mkDisplay n (containsS (trimS l) (str "primary")))
  refine ⟨d', by simp [xrandrStep, hh, hm, hd], ?_, ?_, ?_⟩
  · rw [hnm]; rfl
  · rw [hp]; rfl
  · rw [hr]; rfl

theorem xrandrStep_star (l : Str) (d : Display) (acc : List Display) (r : Str)
    (h1 : containsS (trimS l) (str " connected") = false)
    (h2 : containsS (trimS l) (str "*") = true)
    (hr : (splitWs (trimS l)).head? = some r) :
    ∃ d', xrandrStep (some d, acc) l = (some d', acc) ∧
      d'.name = d.name ∧ d'.is_primary = d.is_primary ∧ d'.resolution = r := by
  have hh : xrandrHeader (trimS l) (some d, acc) = (some d, acc) := by
    simp [xrandrHeader, h1]
  cases hrf : xrandrRefresh (splitWs (trimS l)) with
  | none =>
    have hm : xrandrMode (trimS l) (some d) = some { d with resolution := r } := by
      simp [xrandrMode, h2, hr, hrf]
    obtain ⟨d', hd, hn, hp, hres⟩ := xrandrDepth_fields (trimS l) { d with resolution := r }
    exact ⟨d', by simp [xrandrStep, hh, hm, hd], hn, hp, hres⟩
  | some rate =>
    have hm : xrandrMode (trimS l) (some d) =
        some { d with resolution := r, refresh_rate := rate } := by
      simp [xrandrMode, h2, hr, hrf]
    obtain ⟨d', hd, hn, hp, hres⟩ :=
      xrandrDepth_fields (trimS l) { d with resolution := r, refresh_rate := rate }
    exact ⟨d', by simp [xrandrStep, hh, hm, hd], hn, hp, hres⟩

theorem xrandr_fold_none (ls : List Str) : ∀ acc : List Display,
    (∀ l ∈ ls, containsS (trimS l) (str " connected") = false) →
    List.foldl xrandrStep (none, acc) ls = (none, acc) := by
  induction ls with
  | nil => intro acc _; rfl
  | cons l ls ih =>
    intro acc hls
    rw [List.foldl_cons, xrandrStep_none l acc (hls l (by simp))]
    exact ih acc (fun x hx => hls x (List.mem_cons_of_mem _ hx))

theorem xrandr_fold_neutral (ls : List Str) : ∀ (d : Display) (acc : List Display),
    (∀ l ∈ ls, containsS (trimS l) (str " connected") = false ∧
      containsS (trimS l) (str "*") = false) →
    ∃ d', List.foldl xrandrStep (some d, acc) ls = (some d', acc) ∧
      d'.name = d.name ∧ d'.is_primary = d.is_primary ∧
      d'.resolution = d.resolution := by
  induction ls with
  | nil => intro d acc _; exact ⟨d, rfl, rfl, rfl, rfl⟩
  | cons l ls ih =>
    intro d acc hls
    obtain ⟨h1, h2⟩ := hls l (by simp)
    obtain ⟨d1, hstep, hn1, hp1, hr1⟩ := xrandrStep_neutral l d acc h1 h2
    obtain ⟨d2, hfold, hn2, hp2, hr2⟩ :=
      ih d1 acc (fun x hx => hls x (List.mem_cons_of_mem _ hx))
    refine ⟨d2, ?_, by rw [hn2, hn1], by rw [hp2, hp1], by rw [hr2, hr1]⟩
    rw [List.foldl_cons, hstep, hfold]

/-- Processing one display block: neutral lines, the starred mode line,
then neutral lines; the resolution becomes the starred line's first
field, name and primary flag survive. -/
theorem xrandr_fold_block (p q : List Str) (s : Str) (d : Display)
    (acc : List Display) (r : Str)
    (hp : ∀ l ∈ p, containsS (trimS l) (str " connected") = false ∧
      containsS (trimS l) (str "*") = false)
    (hq : ∀ l ∈ q, containsS (trimS l) (str " connected") = false ∧
      containsS (trimS l) (str "*") = false)
    (hs1 : containsS (trimS s) (str " connected") = false)
    (hs2 : containsS (trimS s) (str "*") = true)
    (hr : (splitWs (trimS s)).head? = some r) :
    ∃ d', List.foldl xrandrStep (some d, acc) (p ++ s :: q) = (some d', acc) ∧
      d'.name = d.name ∧ d'.is_primary = d.is_primary ∧ d'.resolution = r := by
  obtain ⟨d1, hf1, hn1, hp1, hr1⟩ := xrandr_fold_neutral p d acc hp
  obtain ⟨d2, hstep, hn2, hp2, hr2⟩ := xrandrStep_star s d1 acc r hs1 hs2 hr
  obtain ⟨d3, hf3, hn3, hp3, hr3⟩ := xrandr_fold_neutral q d2 acc hq
  refine ⟨d3, ?_, by rw [hn3, hn2, hn1], by rw [hp3, hp2, hp1], by rw [hr3, hr2]⟩
  rw [List.foldl_append, hf1, List.foldl_cons, hstep, hf3]

/-- Claim C9: on xrandr output consisting of anything free of
` connected` (in particular `disconnected` lines, which start no block),
then two connected-header lines each followed by a block with exactly one
`*`-marked mode line, exactly one header marked `primary`, the parsed
display list has length 2, exactly one entry is primary, each entry is
named by the first whitespace field of its header, and each resolution is
the first whitespace field of its block's starred line. -/
theorem C9_xrandr_two_blocks (h : Host) (out : Str)
    (pre p1 q1 p2 q2 : List Str) (conn1 s1 conn2 s2 n1 r1 n2 r2 : Str)
    (hout : h.xrandr = some out)
    (hlines : linesOf out =
      pre ++ (conn1 :: (p1 ++ (s1 :: q1))) ++ (conn2 :: (p2 ++ (s2 :: q2))))
    (hpre : ∀ l ∈ pre, containsS (trimS l) (str " connected") = false)
    (hp1 : ∀ l ∈ p1, containsS (trimS l) (str " connected") = false ∧
      containsS (trimS l) (str "*") = false)
    (hq1 : ∀ l ∈ q1, containsS (trimS l) (str " connected") = false ∧
      containsS (trimS l) (str "*") = false)
    (hp2 : ∀ l ∈ p2, containsS (trimS l) (str " connected") = false ∧
      containsS (trimS l) (str "*") = false)
    (hq2 : ∀ l ∈ q2, containsS (trimS l) (str " connected") = false ∧
      containsS (trimS l) (str "*") = false)
    (hc1 : containsS (trimS conn1) (str " connected") = true)
    (hc1s : containsS (trimS conn1) (str "*") = false)
    (hn1 : (splitWs (trimS conn1)).head? = some n1)
    (hc2 : containsS (trimS conn2) (str " connected") = true)
    (hc2s : containsS (trimS conn2) (str "*") = false)
    (hn2 : (splitWs (trimS conn2)).head? = some n2)
    (hs1a : containsS (trimS s1) (str " connected") = false)
    (hs1b : containsS (trimS s1) (str "*") = true)
    (hr1 : (splitWs (trimS s1)).head? = some r1)
    (hs2a : containsS (trimS s2) (str " connected") = false)
    (hs2b : containsS (trimS s2) (str "*") = true)
    (hr2 : (splitWs (trimS s2)).head? = some r2)
    (hprim : containsS (trimS conn1) (str "primary") ≠
      containsS (trimS conn2) (str "primary")) :
    ∃ d1 d2, DisplayInfo.detect h = Except.ok ⟨[d1, d2]⟩ ∧
      d1.name = n1 ∧ d1.resolution = r1 ∧
      d1.is_primary = containsS (trimS conn1) (str "primary") ∧
      d2.name = n2 ∧ d2.resolution = r2 ∧
      d2.is_primary = containsS (trimS conn2) (str "primary") ∧
      ((d1.is_primary = true ∧ d2.is_primary = false) ∨
        (d1.is_primary = false ∧ d2.is_primary = true)) := by
  have h0 : List.foldl xrandrStep (none, ([] : List Display)) pre = (none, []) :=
    xrandr_fold_none pre [] hpre
  obtain ⟨e1, hstep1, he1n, he1p, he1r⟩ := xrandrStep_conn conn1 none [] n1 hc1 hc1s hn1
  simp only [Option.toList, List.append_nil] at hstep1
  obtain ⟨f1, hblock1, hf1n, hf1p, hf1r⟩ :=
    xrandr_fold_block p1 q1 s1 e1 [] r1 hp1 hq1 hs1a hs1b hr1
  obtain ⟨e2, hstep2, he2n, he2p, he2r⟩ :=
    xrandrStep_conn conn2 (some f1) [] n2 hc2 hc2s hn2
  simp only [Option.toList, List.nil_append] at hstep2
  obtain ⟨f2, hblock2, hf2n, hf2p, hf2r⟩ :=
    xrandr_fold_block p2 q2 s2 e2 [f1] r2 hp2 hq2 hs2a hs2b hr2
  have hB1 : List.foldl xrandrStep (none, ([] : List Display))
      (conn1 :: (p1 ++ (s1 :: q1))) = (some f1, []) := by
    rw [List.foldl_cons, hstep1, hblock1]
  have hB2 : List.foldl xrandrStep (some f1, ([] : List Display))
      (conn2 :: (p2 ++ (s2 :: q2))) = (some f2, [f1]) := by
    rw [List.foldl_cons, hstep2, hblock2]
  have hparse : detect_displays_xrandr out = [f1, f2] := by
    unfold detect_displays_xrandr
    rw [hlines, List.foldl_append, List.foldl_append, h0, hB1, hB2]
    rfl
  have hdet : detect_displays h = [f1, f2] := by
    unfold detect_displays
    rw [hout]
    simp [hparse]
  have hd1p : f1.is_primary = containsS (trimS conn1) (str "primary") := by
    rw [hf1p, he1p]
  have hd2p : f2.is_primary = containsS (trimS conn2) (str "primary") := by
    rw [hf2p, he2p]
  refine ⟨f1, f2, ?_, by rw [hf1n, he1n], hf1r, hd1p,
    by rw [hf2n, he2n], hf2r, hd2p, ?_⟩
  · unfold DisplayInfo.detect
    rw [hdet]
  · cases hP1 : containsS (trimS conn1) (str "primary") with
    | true =>
      left
      refine ⟨by rw [hd1p, hP1], ?_⟩
      rw [hP1] at hprim
      cases hP2 : containsS (trimS conn2) (str "primary") with
      | true => exact absurd hP2.symm hprim
      | false => rw [hd2p, hP2]
    | false =>
      right
      refine ⟨by rw [hd1p, hP1], ?_⟩
      rw [hP1] at hprim
      cases hP2 : containsS (trimS conn2) (str "primary") with
      | true => rw [hd2p, hP2]
      | false => exact absurd hP2.symm hprim

/-- Concrete xrandr --verbose capture for the C9 witness: a header line,
a `disconnected` line (starting no block), and two connected blocks, the
first marked primary. -/
def C9out : Str :=
  str "Screen 0: minimum 320 x 200, current 4480 x 1440\nHDMI-1 disconnected (normal left inverted right x axis y axis)\neDP-1 connected primary 1920x1080+0+0 (normal left inverted right x axis y axis) 344mm x 194mm\n  1920x1080 60.00*+\n  Depth: 24\nDP-1 connected 2560x1440+1920+0 (normal left inverted right x axis y axis) 597mm x 336mm\n  2560x1440 59.95*\n"

set_option maxRecDepth 40000 in
/-- Witness for C9: parsing the concrete capture yields exactly two
displays, the first (`eDP-1`, 1920x1080) primary and the second
(`DP-1`, 2560x1440) not. -/
theorem C9_witness :
    ∃ d1 d2, DisplayInfo.detect { Host.empty with xrandr := some C9out } =
      Except.ok ⟨[d1, d2]⟩ ∧
      d1.name = str "eDP-1" ∧ d1.resolution = str "1920x1080" ∧
      d1.is_primary = true ∧
      d2.name = str "DP-1" ∧ d2.resolution = str "2560x1440" ∧
      d2.is_primary = false := by
  obtain ⟨d1, d2, hdet, hn1, hr1, hp1, hn2, hr2, hp2, _⟩ :=
    C9_xrandr_two_blocks { Host.empty with xrandr := some C9out } C9out
      [str "Screen 0: minimum 320 x 200, current 4480 x 1440",
       str "HDMI-1 disconnected (normal left inverted right x axis y axis)"]
      [] [str "  Depth: 24"] [] []
      (str "eDP-1 connected primary 1920x1080+0+0 (normal left inverted right x axis y axis) 344mm x 194mm")
      (str "  1920x1080 60.00*+")
      (str "DP-1 connected 2560x1440+1920+0 (normal left inverted right x axis y axis) 597mm x 336mm")
      (str "  2560x1440 59.95*")
      (str "eDP-1") (str "1920x1080") (str "DP-1") (str "2560x1440")
      rfl (by decide) (by decide) (by decide) (by decide) (by decide) (by decide)
      (by decide) (by decide) (by decide) (by decide) (by decide) (by decide)
      (by decide) (by decide) (by decide) (by decide) (by decide) (by decide)
      (by decide)
  exact ⟨d1, d2, hdet, hn1, hr1, by rw [hp1]; decide,
    hn2, hr2, by rw [hp2]; decide⟩

end ATL
